import Mathlib

/-!
Verification of the personal-finance tracker (`src/app.py`).

The Python program is embedded shallowly:
* the class hierarchy `Transaction` / `Income` / `Expense` becomes a record
  with a kind tag, with the methods `apply` and `get_type` as functions;
* the session ledger `st.session_state.data` becomes a `List Transaction`,
  and `FinanceTracker.add_transaction`, which can raise `ValueError`,
  becomes a function into `Except String`;
* the pandas `DataFrame` produced by `to_dataframe` becomes a `List Row`;
  column selection / filtering / summation become list operations;
* monetary amounts (Python floats entered through the UI) are modelled as
  rationals, so sums and differences are exact;
* `generate_report` takes the timestamp as an explicit argument, since
  `datetime.now()` is the only impure input of the function.
-/

/-- The two concrete subclasses of the abstract `Transaction` class. -/
inductive TransactionKind where
  | income : TransactionKind
  | expense : TransactionKind
deriving DecidableEq, Repr

/-- Constructor `Transaction.__init__` stores `date`, `category`, `amount` unchecked.
`date` and `category` are opaque strings for the core. -/
structure Transaction where
  date : String
  category : String
  amount : ℚ
  kind : TransactionKind
deriving DecidableEq, Repr

/-- Method `Income.apply` returns `self._amount`; `Expense.apply` returns
`-self._amount`. -/
def Transaction.apply (t : Transaction) : ℚ :=
  match t.kind with
  | .income => t.amount
  | .expense => -t.amount

/-- Method `Income.get_type` returns `"Income"`; `Expense.get_type` returns
`"Expense"`. -/
def Transaction.get_type (t : Transaction) : String :=
  match t.kind with
  | .income => "Income"
  | .expense => "Expense"

/-- Construction `Income(date, category, amount)`: the inherited `__init__` only assigns
the three fields; there is no `raise` anywhere in it, so the embedding
always returns `Except.ok`. -/
def mkIncome (date category : String) (amount : ℚ) : Except String Transaction :=
  Except.ok { date := date, category := category, amount := amount, kind := .income }

/-- Construction `Expense(date, category, amount)`: same unchecked construction. -/
def mkExpense (date category : String) (amount : ℚ) : Except String Transaction :=
  Except.ok { date := date, category := category, amount := amount, kind := .expense }

/-- Method `FinanceTracker.add_transaction`: raises
`ValueError("Amount must be positive")` when `transaction._amount <= 0`,
otherwise appends to `st.session_state.data`. -/
def add_transaction (ledger : List Transaction) (t : Transaction) :
    Except String (List Transaction) :=
  if t.amount ≤ 0 then Except.error ("Amount must be positive")
  else Except.ok (ledger ++ [t])

/-- The ledger state after one call of `add_transaction`: unchanged when the
call raised, the returned ledger otherwise. -/
def step (ledger : List Transaction) (t : Transaction) : List Transaction :=
  match add_transaction ledger t with
  | Except.ok l => l
  | Except.error _ => ledger

/-- A ledger reachable from the empty session state by a sequence of
`add_transaction` calls (the only mutating operation in the program). -/
def run (ts : List Transaction) : List Transaction :=
  ts.foldl step []

/-- One row of the DataFrame built by `FinanceTracker.to_dataframe`. -/
structure Row where
  date : String
  t_type : String
  category : String
  amount : ℚ
deriving DecidableEq, Repr

/-- The row dictionary built for one transaction inside
`FinanceTracker.to_dataframe` (lines 63-68). -/
def rowOf (t : Transaction) : Row :=
  { date := t.date, t_type := t.get_type, category := t.category,
    amount := t.amount }

/-- Method `FinanceTracker.to_dataframe`: one row per stored transaction, in
storage order. -/
def to_dataframe (ledger : List Transaction) : List Row :=
  ledger.map rowOf

/-- Expression `df[df["t_type"] == "Income"]["amount"].sum()` inside
`ReportGenerator.generate_report` (line 77). -/
def report_income (df : List Row) : ℚ :=
  ((df.filter (fun r => r.t_type == "Income")).map Row.amount).sum

/-- Expression `df[df["t_type"] == "Expense"]["amount"].sum()` inside
`ReportGenerator.generate_report` (line 78). -/
def report_expense (df : List Row) : ℚ :=
  ((df.filter (fun r => r.t_type == "Expense")).map Row.amount).sum

/-- Assignment `balance = income - expense` inside `ReportGenerator.generate_report`
(line 79). -/
def report_balance (df : List Row) : ℚ :=
  report_income df - report_expense df

/-- The module-level UI aggregation (line 123). -/
def ui_income (df : List Row) : ℚ :=
  ((df.filter (fun r => r.t_type == "Income")).map Row.amount).sum

/-- The module-level UI aggregation (line 124). -/
def ui_expense (df : List Row) : ℚ :=
  ((df.filter (fun r => r.t_type == "Expense")).map Row.amount).sum

/-- The module-level UI aggregation (line 125). -/
def ui_balance (df : List Row) : ℚ :=
  ui_income df - ui_expense df

/-- Assignment `exp_df = df[df["t_type"] == "Expense"]` (line 146). -/
def exp_df (df : List Row) : List Row :=
  df.filter (fun r => r.t_type == "Expense")

/-- Grouping `exp_df.groupby("category")["amount"].sum()` (line 149): one
entry per category occurring among the expense rows, holding the sum of the
amounts of the expense rows of that category.  The entry order is
irrelevant to every claim (the spec calls the grouping an unordered map). -/
def expense_by_category (df : List Row) : List (String × ℚ) :=
  (((exp_df df).map Row.category).dedup).map
    (fun c => (c, (((exp_df df).filter (fun r => r.category == c)).map Row.amount).sum))

/-- Function `ReportGenerator.generate_report` (lines 76-88), with the timestamp
`datetime.now().strftime('%d-%m-%Y %H:%M')` passed in as `now`. -/
def generate_report (df : List Row) (now : String) : String :=
  "PERSONAL FINANCE REPORT\n------------------------\n"
    ++ ("Total Income  : ₹ " ++ toString (report_income df) ++ "\n")
    ++ ("Total Expense : ₹ " ++ toString (report_expense df) ++ "\n")
    ++ ("Savings/Loss  : ₹ " ++ toString (report_balance df) ++ "\n")
    ++ ("\n" ++ ("Generated on  : " ++ now) ++ "\n")

/-! ### Pandas column semantics on the empty DataFrame

A DataFrame built by `pd.DataFrame(rows)` carries the dict keys as columns
only when `rows` is non-empty; `pd.DataFrame([])` has no columns, so
selecting `df["t_type"]` on it raises `KeyError`.  Every frame this program
aggregates comes from `to_dataframe`, where the frame is column-less
exactly when the row list is empty.  The following wrappers embed the
aggregation expressions together with this failure mode; the module-level
code never reaches it because of the `df.empty` guard at line 119. -/

/-- Line 77 with pandas column semantics: `df["t_type"]` raises `KeyError`
on the column-less empty frame, and otherwise the reduction is
`report_income`. -/
def pd_income (df : List Row) : Except String ℚ :=
  if df.isEmpty then Except.error ("KeyError: t_type")
  else Except.ok (report_income df)

/-- Line 78 with pandas column semantics, as for `pd_income`. -/
def pd_expense (df : List Row) : Except String ℚ :=
  if df.isEmpty then Except.error ("KeyError: t_type")
  else Except.ok (report_expense df)

/-- Lines 146-149 with pandas column semantics: the filter
`df[df["t_type"] == "Expense"]` raises `KeyError` on the column-less empty
frame, and otherwise the grouping is `expense_by_category`. -/
def pd_expense_by_category (df : List Row) : Except String (List (String × ℚ)) :=
  if df.isEmpty then Except.error ("KeyError: t_type")
  else Except.ok (expense_by_category df)

/-- The guarded module-level flow (lines 117-125 and 164-165): the
aggregates are computed only under `if not df.empty`; on an empty frame
the program shows the info message and yields no aggregates. -/
def ui_aggregates (ledger : List Transaction) : Option (ℚ × ℚ × ℚ) :=
  if (to_dataframe ledger).isEmpty then Option.none
  else Option.some (ui_income (to_dataframe ledger),
    ui_expense (to_dataframe ledger), ui_balance (to_dataframe ledger))

/-! ### Concrete data used by witnesses and counterexamples -/

/-- A sample date string (dates are opaque to the core). -/
def d0 : String := "2024-01-01"

/-- A sample timestamp string, standing for `datetime.now().strftime(...)`. -/
def ts0 : String := "12-10-2026 10:00"

/-- A sample valid income transaction. -/
def txSalary : Transaction :=
  { date := d0, category := "Salary", amount := 50000, kind := .income }

/-- A sample valid expense transaction. -/
def txRent : Transaction :=
  { date := d0, category := "Rent", amount := 15000, kind := .expense }

/-- A zero-amount expense transaction, as in the spec scenario
`Expense(2024-01-01, Food, 0)`. -/
def txZeroFood : Transaction :=
  { date := d0, category := "Food", amount := 0, kind := .expense }

/-! ### Helper lemmas -/

/-- Splitting a summed projection of a list along a Boolean filter. -/
lemma sum_map_filter_split {α : Type} (val : α → ℚ) (p : α → Bool) (l : List α) :
    ((l.filter p).map val).sum + ((l.filter (fun x => !(p x))).map val).sum
      = (l.map val).sum := by
  induction l with
  | nil => simp
  | cons x xs ih =>
    cases h : p x <;> simp [List.filter_cons, h, ← ih] <;> ring

/-- Summing a projection fiberwise over a duplicate-free list of keys that
covers the list partitions the total sum. -/
lemma sum_map_filter_partition {α : Type} (key : α → String) (val : α → ℚ) :
    ∀ (cats : List String), cats.Nodup → ∀ (l : List α), (∀ x ∈ l, key x ∈ cats) →
      (cats.map (fun c => ((l.filter (fun x => key x == c)).map val).sum)).sum
        = (l.map val).sum := by
  intro cats
  induction cats with
  | nil =>
    intro _ l hmem
    cases l with
    | nil => simp
    | cons x xs => exact absurd (hmem x (List.mem_cons_self x xs)) (List.not_mem_nil _)
  | cons c cs ih =>
    intro hnd l hmem
    have hcnotin : c ∉ cs := (List.nodup_cons.mp hnd).1
    have hndcs : cs.Nodup := (List.nodup_cons.mp hnd).2
    have hmem2 : ∀ x ∈ l.filter (fun x => !(key x == c)), key x ∈ cs := by
      intro x hx
      rw [List.mem_filter] at hx
      have hne : key x ≠ c := by simpa using hx.2
      rcases List.mem_cons.mp (hmem x hx.1) with h | h
      · exact absurd h hne
      · exact h
    have hrest : ∀ c2 ∈ cs,
        l.filter (fun x => key x == c2)
          = (l.filter (fun x => !(key x == c))).filter (fun x => key x == c2) := by
      intro c2 hc2
      rw [List.filter_filter]
      apply List.filter_congr
      intro x _
      cases hkx : (key x == c2) with
      | true =>
        have hx2 : key x = c2 := by simpa using hkx
        have hne : (key x == c) = false := by
          have : key x ≠ c := by
            intro h
            exact hcnotin ((h.symm.trans hx2) ▸ hc2)
          simpa using this
        simp [hne]
      | false => simp [hkx]
    have hmapeq :
        (cs.map (fun c2 => ((l.filter (fun x => key x == c2)).map val).sum)).sum
          = (cs.map (fun c2 =>
              (((l.filter (fun x => !(key x == c))).filter
                  (fun x => key x == c2)).map val).sum)).sum := by
      congr 1
      apply List.map_congr_left
      intro c2 hc2
      rw [hrest c2 hc2]
    calc ((c :: cs).map (fun c2 => ((l.filter (fun x => key x == c2)).map val).sum)).sum
        = ((l.filter (fun x => key x == c)).map val).sum
            + (cs.map (fun c2 => ((l.filter (fun x => key x == c2)).map val).sum)).sum := by
          simp
      _ = ((l.filter (fun x => key x == c)).map val).sum
            + ((l.filter (fun x => !(key x == c))).map val).sum := by
          rw [hmapeq, ih hndcs _ hmem2]
      _ = (l.map val).sum := sum_map_filter_split val _ l

/-- Filtering the mapped rows of a ledger is mapping the correspondingly
filtered ledger. -/
lemma filter_map_rowOf (p : Row → Bool) (l : List Transaction) :
    (l.map rowOf).filter p = (l.filter (fun t => p (rowOf t))).map rowOf := by
  induction l with
  | nil => rfl
  | cons t ts ih => cases h : p (rowOf t) <;> simp [List.filter_cons, h, ih]

/-- The report's income reduction over the DataFrame equals the direct
reduction over the ledger by kind label. -/
lemma report_income_ledger (l : List Transaction) :
    report_income (to_dataframe l)
      = ((l.filter (fun t => t.get_type == "Income")).map Transaction.amount).sum := by
  simp only [report_income, to_dataframe, filter_map_rowOf, List.map_map]
  rfl

/-- The report's expense reduction over the DataFrame equals the direct
reduction over the ledger by kind label. -/
lemma report_expense_ledger (l : List Transaction) :
    report_expense (to_dataframe l)
      = ((l.filter (fun t => t.get_type == "Expense")).map Transaction.amount).sum := by
  simp only [report_expense, to_dataframe, filter_map_rowOf, List.map_map]
  rfl

/-- Rejected adds leave the session state untouched. -/
lemma step_nonpos {l : List Transaction} {t : Transaction} (h : t.amount ≤ 0) :
    step l t = l := by
  simp [step, add_transaction, h]

/-- Accepted adds append the transaction at the end. -/
lemma step_pos {l : List Transaction} {t : Transaction} (h : ¬ t.amount ≤ 0) :
    step l t = l ++ [t] := by
  simp [step, add_transaction, h]

/-- Every ledger produced by folding `step` over calls, starting from a state
of positive amounts, holds only positive amounts. -/
lemma foldl_step_positive (ts : List Transaction) :
    ∀ (l : List Transaction), (∀ t ∈ l, 0 < t.amount) →
      ∀ t ∈ ts.foldl step l, 0 < t.amount := by
  induction ts with
  | nil => exact fun l h t ht => h t ht
  | cons x xs ih =>
    intro l h
    simp only [List.foldl_cons]
    apply ih
    intro t ht
    by_cases hx : x.amount ≤ 0
    · rw [step_nonpos hx] at ht
      exact h t ht
    · rw [step_pos hx] at ht
      rcases List.mem_append.mp ht with h1 | h1
      · exact h t h1
      · have h2 : t = x := by simpa using h1
        rw [h2]
        exact lt_of_not_le hx

/-! ### Claim theorems -/

/-- C1 counterexample: constructing `Expense(d0, "Food", 0)` does not fail —
`Transaction.__init__` performs no validation, so a transaction object with
non-positive amount exists. -/
theorem construction_accepts_nonpositive :
    mkExpense d0 ("Food") 0 = Except.ok txZeroFood ∧ txZeroFood.amount ≤ 0 :=
  ⟨rfl, by decide⟩

/-- C1 (amended): construction of either variant always succeeds, with the
given fields stored unchecked; the `amount > 0` rule is enforced only by
`FinanceTracker.add_transaction`, which raises the validation error for
`amount ≤ 0`, so no transaction with non-positive amount is ever stored in
the ledger. -/
theorem construction_unchecked_ledger_rejects (d c : String) (a : ℚ)
    (l : List Transaction) :
    mkIncome d c a
        = Except.ok { date := d, category := c, amount := a, kind := TransactionKind.income }
    ∧ mkExpense d c a
        = Except.ok { date := d, category := c, amount := a, kind := TransactionKind.expense }
    ∧ (a ≤ 0 →
        add_transaction l { date := d, category := c, amount := a, kind := TransactionKind.income }
            = Except.error ("Amount must be positive")
        ∧ add_transaction l { date := d, category := c, amount := a, kind := TransactionKind.expense }
            = Except.error ("Amount must be positive")) := by
  refine ⟨rfl, rfl, fun ha => ⟨?_, ?_⟩⟩ <;> simp [add_transaction, ha]

/-- Witness for `construction_unchecked_ledger_rejects` at a concrete
zero-amount input. -/
theorem construction_unchecked_ledger_rejects_witness :
    add_transaction []
        { date := d0, category := "Food", amount := 0, kind := TransactionKind.income }
      = Except.error ("Amount must be positive") :=
  ((construction_unchecked_ledger_rejects d0 ("Food") 0 []).2.2 (by decide)).1

/-- C2: for every ledger and every transaction with `amount ≤ 0`,
`add_transaction` raises the validation error and the session ledger is
exactly unchanged. -/
theorem add_transaction_rejects_nonpositive (l : List Transaction)
    (t : Transaction) (h : t.amount ≤ 0) :
    add_transaction l t = Except.error ("Amount must be positive")
    ∧ step l t = l :=
  ⟨by simp [add_transaction, h], step_nonpos h⟩

/-- Witness for `add_transaction_rejects_nonpositive` on a nonempty ledger. -/
theorem add_transaction_rejects_nonpositive_witness :
    add_transaction [txSalary] txZeroFood = Except.error ("Amount must be positive")
    ∧ step [txSalary] txZeroFood = [txSalary] :=
  add_transaction_rejects_nonpositive [txSalary] txZeroFood (by decide)

/-- C3: for every ledger and every transaction with `amount > 0`,
`add_transaction` succeeds, the ledger grows by exactly one, the new
transaction is the last element, and the previously stored prefix is
unchanged. -/
theorem add_transaction_appends_valid (l : List Transaction) (t : Transaction)
    (h : 0 < t.amount) :
    add_transaction l t = Except.ok (l ++ [t])
    ∧ (l ++ [t]).length = l.length + 1
    ∧ (l ++ [t]).getLast? = some t
    ∧ (l ++ [t]).take l.length = l := by
  refine ⟨?_, by simp, List.getLast?_concat l, List.take_left l [t]⟩
  simp [add_transaction, not_le.mpr h]

/-- Witness for `add_transaction_appends_valid` on a nonempty ledger. -/
theorem add_transaction_appends_valid_witness :
    add_transaction [txRent] txSalary = Except.ok ([txRent] ++ [txSalary])
    ∧ ([txRent] ++ [txSalary]).length = [txRent].length + 1
    ∧ ([txRent] ++ [txSalary]).getLast? = some txSalary
    ∧ ([txRent] ++ [txSalary]).take [txRent].length = [txRent] :=
  add_transaction_appends_valid [txRent] txSalary (by decide)

/-- C4: the report's balance equals its income minus its expense, where the
income (resp. expense) aggregate is exactly the sum of the amounts of the
ledger transactions whose kind label is `"Income"` (resp. `"Expense"`). -/
theorem balance_eq_income_sub_expense (l : List Transaction) :
    report_balance (to_dataframe l)
      = report_income (to_dataframe l) - report_expense (to_dataframe l)
    ∧ report_income (to_dataframe l)
        = ((l.filter (fun t => t.get_type == "Income")).map Transaction.amount).sum
    ∧ report_expense (to_dataframe l)
        = ((l.filter (fun t => t.get_type == "Expense")).map Transaction.amount).sum :=
  ⟨rfl, report_income_ledger l, report_expense_ledger l⟩

/-- C5: every entry of the category grouping holds the sum of the amounts of
the expense rows of its category (income rows contribute to no entry), and
the values of the grouping sum to the total expense. -/
theorem expense_by_category_correct (df : List Row) :
    (∀ p ∈ expense_by_category df,
        p.2 = ((df.filter
                (fun r => r.t_type == "Expense" && r.category == p.1)).map
              Row.amount).sum)
    ∧ ((expense_by_category df).map Prod.snd).sum = report_expense df := by
  constructor
  · intro p hp
    simp only [expense_by_category, List.mem_map] at hp
    obtain ⟨c, _hc, rfl⟩ := hp
    show (((exp_df df).filter (fun r => r.category == c)).map Row.amount).sum
        = ((df.filter (fun r => r.t_type == "Expense" && r.category == c)).map
            Row.amount).sum
    have h1 : df.filter (fun r => (r.category == c) && (r.t_type == "Expense"))
        = df.filter (fun r => (r.t_type == "Expense") && (r.category == c)) :=
      List.filter_congr (fun x _ => Bool.and_comm _ _)
    simp only [exp_df]
    rw [List.filter_filter, h1]
  · simp only [expense_by_category, List.map_map]
    have hcover : ∀ x ∈ exp_df df,
        Row.category x ∈ ((exp_df df).map Row.category).dedup := by
      intro x hx
      rw [List.mem_dedup]
      exact List.mem_map_of_mem Row.category hx
    exact sum_map_filter_partition Row.category Row.amount
      (((exp_df df).map Row.category).dedup) (List.nodup_dedup _)
      (exp_df df) hcover

/-- A concrete grouping entry used by the witness below. -/
def catRentPair : String × ℚ := (("Rent"), 15000)

/-- Witness for `expense_by_category_correct` on a two-transaction ledger. -/
theorem expense_by_category_correct_witness :
    catRentPair.2
      = (((to_dataframe [txSalary, txRent]).filter
            (fun r => r.t_type == "Expense" && r.category == catRentPair.1)).map
          Row.amount).sum :=
  (expense_by_category_correct (to_dataframe [txSalary, txRent])).1
    catRentPair
    (by simp [expense_by_category, exp_df, to_dataframe, rowOf, txSalary, txRent,
          Transaction.get_type, catRentPair, d0, List.dedup_cons_of_not_mem])

set_option maxRecDepth 4096 in
/-- C6 counterexample: on a ledger whose expense breakdown is
`{Rent: 15000}`, the generated text report does not mention the category
`Rent` at all — the per-category breakdown is absent from the report. -/
theorem report_omits_category_breakdown :
    expense_by_category (to_dataframe [txSalary, txRent]) = [catRentPair]
    ∧ ¬ (("Rent").data
          <:+: (generate_report (to_dataframe [txSalary, txRent]) ts0).data) := by
  have hi : report_income (to_dataframe [txSalary, txRent]) = 50000 := by
    simp [report_income, to_dataframe, rowOf, txSalary, txRent, Transaction.get_type]
  have he : report_expense (to_dataframe [txSalary, txRent]) = 15000 := by
    simp [report_expense, to_dataframe, rowOf, txSalary, txRent, Transaction.get_type]
  have hb : report_balance (to_dataframe [txSalary, txRent]) = 35000 := by
    rw [report_balance, hi, he]
    norm_num
  constructor
  · simp [expense_by_category, exp_df, to_dataframe, rowOf, txSalary, txRent,
      Transaction.get_type, catRentPair, d0, List.dedup_cons_of_not_mem]
  · simp only [generate_report, hi, he, hb, ts0]
    decide

/-- C6 (amended): the generated text report contains the rendered total
income, total expense, and balance, each under its label, plus the
generation timestamp — but not the per-category expense breakdown, which
the program renders only as a pie chart. -/
theorem report_contains_totals_and_timestamp (df : List Row) (now : String) :
    ("Total Income  : ₹ " ++ toString (report_income df)).data
        <:+: (generate_report df now).data
    ∧ ("Total Expense : ₹ " ++ toString (report_expense df)).data
        <:+: (generate_report df now).data
    ∧ ("Savings/Loss  : ₹ " ++ toString (report_balance df)).data
        <:+: (generate_report df now).data
    ∧ ("Generated on  : " ++ now).data <:+: (generate_report df now).data := by
  refine ⟨?_, ?_, ?_, ?_⟩
  · exact ⟨("PERSONAL FINANCE REPORT\n------------------------\n").data,
      (("\n").data
        ++ ("Total Expense : ₹ " ++ toString (report_expense df) ++ "\n").data
        ++ ("Savings/Loss  : ₹ " ++ toString (report_balance df) ++ "\n").data
        ++ ("\n" ++ ("Generated on  : " ++ now) ++ "\n").data),
      by simp [generate_report, String.data_append]⟩
  · exact ⟨(("PERSONAL FINANCE REPORT\n------------------------\n").data
        ++ ("Total Income  : ₹ " ++ toString (report_income df) ++ "\n").data),
      (("\n").data
        ++ ("Savings/Loss  : ₹ " ++ toString (report_balance df) ++ "\n").data
        ++ ("\n" ++ ("Generated on  : " ++ now) ++ "\n").data),
      by simp [generate_report, String.data_append]⟩
  · exact ⟨(("PERSONAL FINANCE REPORT\n------------------------\n").data
        ++ ("Total Income  : ₹ " ++ toString (report_income df) ++ "\n").data
        ++ ("Total Expense : ₹ " ++ toString (report_expense df) ++ "\n").data),
      (("\n").data ++ ("\n" ++ ("Generated on  : " ++ now) ++ "\n").data),
      by simp [generate_report, String.data_append]⟩
  · exact ⟨(("PERSONAL FINANCE REPORT\n------------------------\n").data
        ++ ("Total Income  : ₹ " ++ toString (report_income df) ++ "\n").data
        ++ ("Total Expense : ₹ " ++ toString (report_expense df) ++ "\n").data
        ++ ("Savings/Loss  : ₹ " ++ toString (report_balance df) ++ "\n").data
        ++ ("\n").data),
      (("\n").data),
      by simp [generate_report, String.data_append]⟩

/-- C7 counterexample: on the empty ledger, the aggregation yields nothing
at all — each column access raises `KeyError` on the column-less empty
DataFrame, and the guarded module-level flow takes the `else` branch and
produces no aggregates — so it does not yield the claimed zeros. -/
theorem empty_ledger_aggregation_never_yields :
    pd_income (to_dataframe []) = Except.error ("KeyError: t_type")
    ∧ pd_expense (to_dataframe []) = Except.error ("KeyError: t_type")
    ∧ pd_expense_by_category (to_dataframe []) = Except.error ("KeyError: t_type")
    ∧ ui_aggregates [] = Option.none :=
  ⟨rfl, rfl, rfl, rfl⟩

/-- C7 (amended): on an empty ledger the program yields no aggregates — the
module-level aggregation is guarded by `df.empty` and the column accesses
of lines 77, 78 and 146 would raise `KeyError` on the column-less empty
DataFrame; only for a non-empty ledger do the column accesses succeed, and
there they return exactly the row reductions. -/
theorem empty_ledger_aggregation_guarded (l : List Transaction) :
    (pd_income (to_dataframe []) = Except.error ("KeyError: t_type")
      ∧ pd_expense (to_dataframe []) = Except.error ("KeyError: t_type")
      ∧ pd_expense_by_category (to_dataframe [])
          = Except.error ("KeyError: t_type")
      ∧ ui_aggregates [] = Option.none)
    ∧ (l ≠ [] →
        pd_income (to_dataframe l) = Except.ok (report_income (to_dataframe l))
        ∧ pd_expense (to_dataframe l)
            = Except.ok (report_expense (to_dataframe l))
        ∧ pd_expense_by_category (to_dataframe l)
            = Except.ok (expense_by_category (to_dataframe l))) := by
  refine ⟨⟨rfl, rfl, rfl, rfl⟩, fun hl => ?_⟩
  cases l with
  | nil => exact absurd rfl hl
  | cons t ts => exact ⟨rfl, rfl, rfl⟩

/-- Witness for `empty_ledger_aggregation_guarded` on a one-element
ledger. -/
theorem empty_ledger_aggregation_guarded_witness :
    pd_income (to_dataframe [txSalary])
        = Except.ok (report_income (to_dataframe [txSalary]))
    ∧ pd_expense (to_dataframe [txSalary])
        = Except.ok (report_expense (to_dataframe [txSalary]))
    ∧ pd_expense_by_category (to_dataframe [txSalary])
        = Except.ok (expense_by_category (to_dataframe [txSalary])) :=
  (empty_ledger_aggregation_guarded [txSalary]).2 (by simp)

/-- C8: for every field assignment, the `Income` variant's `apply` returns
`+amount` and its `get_type` returns `"Income"`, and the `Expense`
variant's `apply` returns `-amount` and its `get_type` returns
`"Expense"`. -/
theorem income_expense_methods (d c : String) (a : ℚ) :
    Transaction.apply
        { date := d, category := c, amount := a, kind := TransactionKind.income } = a
    ∧ Transaction.get_type
        { date := d, category := c, amount := a, kind := TransactionKind.income } = "Income"
    ∧ Transaction.apply
        { date := d, category := c, amount := a, kind := TransactionKind.expense } = -a
    ∧ Transaction.get_type
        { date := d, category := c, amount := a, kind := TransactionKind.expense } = "Expense" :=
  ⟨rfl, rfl, rfl, rfl⟩

/-- C9: every transaction stored in a ledger reachable from the empty
session state holds a positive amount, and each `add_transaction` call
either leaves the ledger unchanged or appends exactly its argument — there
is no removing or modifying operation. -/
theorem ledger_positive_invariant (ts : List Transaction) :
    (∀ t ∈ run ts, 0 < t.amount)
    ∧ (∀ (l : List Transaction) (x : Transaction),
        step l x = l ∨ step l x = l ++ [x]) := by
  constructor
  · exact foldl_step_positive ts []
      (fun t ht => absurd ht (List.not_mem_nil t))
  · intro l x
    by_cases hx : x.amount ≤ 0
    · exact Or.inl (step_nonpos hx)
    · exact Or.inr (step_pos hx)

/-- Witness for `ledger_positive_invariant`: a run that rejects a
zero-amount transaction and accepts a valid one. -/
theorem ledger_positive_invariant_witness : 0 < txSalary.amount :=
  (ledger_positive_invariant [txZeroFood, txSalary]).1 txSalary (by decide)

/-- C10: the income, expense, and balance computed by the module-level UI
code (lines 123-125) agree with the ones computed inside
`ReportGenerator.generate_report` (lines 77-79), on every DataFrame. -/
theorem ui_report_aggregation_agree (df : List Row) :
    ui_income df = report_income df
    ∧ ui_expense df = report_expense df
    ∧ ui_balance df = report_balance df :=
  ⟨rfl, rfl, rfl⟩
